import Mathlib

/-!
Verification of `honeycomb.py`: a generator of honeycomb (hexagonal tiling)
SVG documents.  The Python source is embedded shallowly over the real
numbers: `math.cos`/`math.sin`/`math.radians` become `Real.cos`/`Real.sin`
and an explicit degree-to-radian conversion, Python `range` over (possibly
negative) integers becomes `pyRange`, and the f-string serialization is
modelled with an abstract number-rendering function, since the exact
decimal rendering of a float is irrelevant to the structural claims.
-/

/-- Degree to radian conversion, as in Python `math.radians`. -/
noncomputable def radians (degrees : ℝ) : ℝ := degrees * (Real.pi / 180)

/-- Shallow embedding of `calculate_hexagon(x, y, side_length, top_angle)`
from `honeycomb.py`: the six vertices, starting from top-left, going
clockwise, exactly as listed in the source. -/
noncomputable def calculate_hexagon (x y side_length top_angle : ℝ) :
    List (ℝ × ℝ) :=
  let half_angle := (180 - top_angle) / 2
  let half_angle_rad := radians half_angle
  let dx := side_length * Real.cos half_angle_rad
  let dy := side_length * Real.sin half_angle_rad
  [ (x - dx, y + dy),
    (x + dx, y + dy),
    (x + dx + side_length, y + dy * 2),
    (x + dx, y + dy * 2 + side_length),
    (x - dx, y + dy * 2 + side_length),
    (x - dx - side_length, y + dy * 2) ]

/-- The half-angle in radians, `alpha_rad = radians((180 - angle) / 2)`. -/
noncomputable def alpha_rad (angle : ℝ) : ℝ := radians ((180 - angle) / 2)

/-- `hexagon_height = 2 * length * sin(alpha_rad) + length`. -/
noncomputable def hexagon_height (length angle : ℝ) : ℝ :=
  2 * length * Real.sin (alpha_rad angle) + length

/-- `hexagon_width = 2 * length * cos(alpha_rad)`. -/
noncomputable def hexagon_width (length angle : ℝ) : ℝ :=
  2 * length * Real.cos (alpha_rad angle)

/-- `x_step = hexagon_width + distance`. -/
noncomputable def x_step (length angle distance : ℝ) : ℝ :=
  hexagon_width length angle + distance

/-- `y_step = length + length * sin(alpha_rad) + distance / 2`. -/
noncomputable def y_step (length angle distance : ℝ) : ℝ :=
  length + length * Real.sin (alpha_rad angle) + distance / 2

/-- `x_offset = x_step / 2`. -/
noncomputable def x_offset (length angle distance : ℝ) : ℝ :=
  x_step length angle distance / 2

/-- `total_width = columns * x_step + x_offset`. -/
noncomputable def total_width (columns : ℤ) (length angle distance : ℝ) : ℝ :=
  (columns : ℝ) * x_step length angle distance + x_offset length angle distance

/-- `total_height = rows * y_step + length * sin(alpha_rad)`. -/
noncomputable def total_height (rows : ℤ) (length angle distance : ℝ) : ℝ :=
  (rows : ℝ) * y_step length angle distance + length * Real.sin (alpha_rad angle)

/-- Python `range(n)` for an integer `n`: the list `[0, ..., n-1]`, empty
when `n <= 0`. -/
def pyRange (n : ℤ) : List ℤ := (List.range n.toNat).map Int.ofNat

/-- The list of hexagons generated by the double loop of
`generate_honeycomb_svg`: rows outer, columns inner, odd rows have
`columns - 1` cells and are shifted by `x_offset`. -/
noncomputable def honeycomb_cells (columns rows : ℤ) (length angle distance : ℝ) :
    List (List (ℝ × ℝ)) :=
  (pyRange rows).flatMap (fun (row : ℤ) =>
    let row_columns := if row % 2 = 1 then columns - 1 else columns
    (pyRange row_columns).map (fun (col : ℤ) =>
      let x := (col : ℝ) * x_step length angle distance +
        (if row % 2 = 1 then x_offset length angle distance else 0)
      calculate_hexagon x ((row : ℝ) * y_step length angle distance) length angle))

/-- Squared Euclidean distance between two points. -/
def sqDist (p q : ℝ × ℝ) : ℝ := (p.1 - q.1) ^ 2 + (p.2 - q.2) ^ 2

/-- The `i`-th vertex of a vertex list (default `(0,0)` out of range). -/
def nth (l : List (ℝ × ℝ)) (i : ℕ) : ℝ × ℝ := l.getD i (0, 0)

/-- The `i`-th cell of a cell list (default `[]` out of range). -/
def cellNth (ls : List (List (ℝ × ℝ))) (i : ℕ) : List (ℝ × ℝ) := ls.getD i []

/-- C1: `calculate_hexagon` does return exactly 6 points, but the cyclically
consecutive vertices do NOT all lie at distance `sideLength`: for the anchor
`(0,0)`, `sideLength = 10` and `sideAngle = 120`, the side from vertex 2 to
vertex 3 has squared length 200, not `10^2 = 100` — the code contradicts its
own docstring "All sides have equal length = side_length". -/
theorem hexagon_sides_bug :
    (calculate_hexagon 0 0 10 120).length = 6 ∧
    sqDist (nth (calculate_hexagon 0 0 10 120) 2)
        (nth (calculate_hexagon 0 0 10 120) 3) = 200 ∧
    sqDist (nth (calculate_hexagon 0 0 10 120) 2)
        (nth (calculate_hexagon 0 0 10 120) 3) ≠ 10 ^ 2 := by
  have h2 : nth (calculate_hexagon 0 0 10 120) 2 =
      (0 + 10 * Real.cos (radians ((180 - 120) / 2)) + 10,
        0 + 10 * Real.sin (radians ((180 - 120) / 2)) * 2) := by
    simp [calculate_hexagon, nth]
  have h3 : nth (calculate_hexagon 0 0 10 120) 3 =
      (0 + 10 * Real.cos (radians ((180 - 120) / 2)),
        0 + 10 * Real.sin (radians ((180 - 120) / 2)) * 2 + 10) := by
    simp [calculate_hexagon, nth]
  have hd : sqDist (nth (calculate_hexagon 0 0 10 120) 2)
      (nth (calculate_hexagon 0 0 10 120) 3) = 200 := by
    rw [h2, h3]; simp only [sqDist]; ring
  exact ⟨rfl, hd, by rw [hd]; norm_num⟩

/-- C10: `calculate_hexagon` is translation-equivariant in its anchor, and
its vertex list is mirror-symmetric (as a multiset) about the vertical line
through the anchor's x-coordinate. -/
theorem hexagon_translation_mirror (x y s a : ℝ) :
    calculate_hexagon x y s a =
      (calculate_hexagon 0 0 s a).map (fun p => (p.1 + x, p.2 + y)) ∧
    ((calculate_hexagon x y s a).map (fun p => (2 * x - p.1, p.2))).Perm
      (calculate_hexagon x y s a) := by
  constructor
  · simp only [calculate_hexagon, List.map, List.cons.injEq, Prod.mk.injEq,
      and_true]
    refine ⟨⟨by ring, by ring⟩, ⟨by ring, by ring⟩, ⟨by ring, by ring⟩,
      ⟨by ring, by ring⟩, ⟨by ring, by ring⟩, by ring, by ring⟩
  · simp only [calculate_hexagon, List.map]
    set dx := s * Real.cos (radians ((180 - a) / 2)) with hdx
    set dy := s * Real.sin (radians ((180 - a) / 2)) with hdy
    have e0 : (2 * x - (x - dx), y + dy) = (x + dx, y + dy) := by
      rw [Prod.mk.injEq]; exact ⟨by ring, rfl⟩
    have e1 : (2 * x - (x + dx), y + dy) = (x - dx, y + dy) := by
      rw [Prod.mk.injEq]; exact ⟨by ring, rfl⟩
    have e2 : (2 * x - (x + dx + s), y + dy * 2) = (x - dx - s, y + dy * 2) := by
      rw [Prod.mk.injEq]; exact ⟨by ring, rfl⟩
    have e3 : (2 * x - (x + dx), y + dy * 2 + s) = (x - dx, y + dy * 2 + s) := by
      rw [Prod.mk.injEq]; exact ⟨by ring, rfl⟩
    have e4 : (2 * x - (x - dx), y + dy * 2 + s) = (x + dx, y + dy * 2 + s) := by
      rw [Prod.mk.injEq]; exact ⟨by ring, rfl⟩
    have e5 : (2 * x - (x - dx - s), y + dy * 2) = (x + dx + s, y + dy * 2) := by
      rw [Prod.mk.injEq]; exact ⟨by ring, rfl⟩
    rw [e0, e1, e2, e3, e4, e5]
    refine List.Perm.trans
      (List.Perm.swap (x - dx, y + dy) (x + dx, y + dy) _) ?_
    refine List.Perm.cons _ (List.Perm.cons _ ?_)
    exact List.reverse_perm
      [(x + dx + s, y + dy * 2), (x + dx, y + dy * 2 + s),
       (x - dx, y + dy * 2 + s), (x - dx - s, y + dy * 2)]

/-- At `sideAngle = 120` the half-angle is 30 degrees, i.e. pi/6 radians. -/
lemma rad120 : radians ((180 - (120 : ℝ)) / 2) = Real.pi / 6 := by
  unfold radians; ring

lemma cos120 : Real.cos (radians ((180 - (120 : ℝ)) / 2)) = Real.sqrt 3 / 2 := by
  rw [rad120, Real.cos_pi_div_six]

lemma sin120 : Real.sin (radians ((180 - (120 : ℝ)) / 2)) = 1 / 2 := by
  rw [rad120, Real.sin_pi_div_six]

/-- Largest x-coordinate of a vertex list (the claim's "actual extent"). -/
noncomputable def maxX : List (ℝ × ℝ) → ℝ
  | [] => 0
  | p :: ps => ps.foldl (fun m q => max m q.1) p.1

/-- Smallest x-coordinate of a vertex list. -/
noncomputable def minX : List (ℝ × ℝ) → ℝ
  | [] => 0
  | p :: ps => ps.foldl (fun m q => min m q.1) p.1

/-- Largest y-coordinate of a vertex list. -/
noncomputable def maxY : List (ℝ × ℝ) → ℝ
  | [] => 0
  | p :: ps => ps.foldl (fun m q => max m q.2) p.2

/-- Smallest y-coordinate of a vertex list. -/
noncomputable def minY : List (ℝ × ℝ) → ℝ
  | [] => 0
  | p :: ps => ps.foldl (fun m q => min m q.2) p.2

/-- Closed form for the four extents of a hexagon produced by
`calculate_hexagon`, valid whenever the trigonometric offsets and the side
length are nonnegative. -/
lemma hex_extents (x y s a : ℝ)
    (hdx : 0 ≤ s * Real.cos (radians ((180 - a) / 2)))
    (hdy : 0 ≤ s * Real.sin (radians ((180 - a) / 2)))
    (hs : 0 ≤ s) :
    maxX (calculate_hexagon x y s a) =
      x + s * Real.cos (radians ((180 - a) / 2)) + s ∧
    minX (calculate_hexagon x y s a) =
      x - s * Real.cos (radians ((180 - a) / 2)) - s ∧
    maxY (calculate_hexagon x y s a) =
      y + s * Real.sin (radians ((180 - a) / 2)) * 2 + s ∧
    minY (calculate_hexagon x y s a) =
      y + s * Real.sin (radians ((180 - a) / 2)) := by
  set dx := s * Real.cos (radians ((180 - a) / 2)) with hdxdef
  set dy := s * Real.sin (radians ((180 - a) / 2)) with hdydef
  refine ⟨?_, ?_, ?_, ?_⟩
  · show List.foldl (fun m q => max m q.1) (x - dx)
      [(x + dx, y + dy), (x + dx + s, y + dy * 2), (x + dx, y + dy * 2 + s),
       (x - dx, y + dy * 2 + s), (x - dx - s, y + dy * 2)] = x + dx + s
    simp only [List.foldl]
    have h1 : max (x - dx) (x + dx) = x + dx := max_eq_right (by linarith)
    rw [h1]
    have h2 : max (x + dx) (x + dx + s) = x + dx + s := max_eq_right (by linarith)
    rw [h2]
    have h3 : max (x + dx + s) (x + dx) = x + dx + s := max_eq_left (by linarith)
    rw [h3]
    have h4 : max (x + dx + s) (x - dx) = x + dx + s := max_eq_left (by linarith)
    rw [h4]
    exact max_eq_left (by linarith)
  · show List.foldl (fun m q => min m q.1) (x - dx)
      [(x + dx, y + dy), (x + dx + s, y + dy * 2), (x + dx, y + dy * 2 + s),
       (x - dx, y + dy * 2 + s), (x - dx - s, y + dy * 2)] = x - dx - s
    simp only [List.foldl]
    have h1 : min (x - dx) (x + dx) = x - dx := min_eq_left (by linarith)
    rw [h1]
    have h2 : min (x - dx) (x + dx + s) = x - dx := min_eq_left (by linarith)
    rw [h2]
    rw [h1]
    have h3 : min (x - dx) (x - dx) = x - dx := min_self _
    rw [h3]
    exact min_eq_right (by linarith)
  · show List.foldl (fun m q => max m q.2) (y + dy)
      [(x + dx, y + dy), (x + dx + s, y + dy * 2), (x + dx, y + dy * 2 + s),
       (x - dx, y + dy * 2 + s), (x - dx - s, y + dy * 2)] = y + dy * 2 + s
    simp only [List.foldl]
    have h1 : max (y + dy) (y + dy) = y + dy := max_self _
    rw [h1]
    have h2 : max (y + dy) (y + dy * 2) = y + dy * 2 := max_eq_right (by linarith)
    rw [h2]
    have h3 : max (y + dy * 2) (y + dy * 2 + s) = y + dy * 2 + s :=
      max_eq_right (by linarith)
    rw [h3]
    have h4 : max (y + dy * 2 + s) (y + dy * 2 + s) = y + dy * 2 + s := max_self _
    rw [h4]
    exact max_eq_left (by linarith)
  · show List.foldl (fun m q => min m q.2) (y + dy)
      [(x + dx, y + dy), (x + dx + s, y + dy * 2), (x + dx, y + dy * 2 + s),
       (x - dx, y + dy * 2 + s), (x - dx - s, y + dy * 2)] = y + dy
    simp only [List.foldl]
    have h1 : min (y + dy) (y + dy) = y + dy := min_self _
    rw [h1]
    have h2 : min (y + dy) (y + dy * 2) = y + dy := min_eq_left (by linarith)
    rw [h2]
    have h3 : min (y + dy) (y + dy * 2 + s) = y + dy := min_eq_left (by linarith)
    rw [h3]
    rw [h3]
    exact min_eq_left (by linarith)

/-- C5: the grid layout's bounding extents disagree with the actual extents
of the vertex list: at `sideLength = 10`, `sideAngle = 120` the actual
x-extent is `hexagon_width + 20` and the actual y-extent is `15`, not the
computed `hexagon_height = 20` — the code contradicts its own comments
"from leftmost to rightmost point" / "from top point to bottom point". -/
theorem extents_mismatch_bug :
    maxX (calculate_hexagon 0 0 10 120) - minX (calculate_hexagon 0 0 10 120) ≠
      hexagon_width 10 120 ∧
    maxY (calculate_hexagon 0 0 10 120) - minY (calculate_hexagon 0 0 10 120) ≠
      hexagon_height 10 120 := by
  have hdx : (0 : ℝ) ≤ 10 * Real.cos (radians ((180 - (120 : ℝ)) / 2)) := by
    rw [cos120]; positivity
  have hdy : (0 : ℝ) ≤ 10 * Real.sin (radians ((180 - (120 : ℝ)) / 2)) := by
    rw [sin120]; norm_num
  obtain ⟨hmx, hmn, hmy, hny⟩ :=
    hex_extents 0 0 10 120 hdx hdy (by norm_num)
  constructor
  · rw [hmx, hmn]
    simp only [hexagon_width, alpha_rad]
    intro h; linarith
  · rw [hmy, hny]
    simp only [hexagon_height, alpha_rad]
    rw [sin120]
    norm_num

/-- C2: adjacent hexagons in the same row are NOT separated by the
configured distance: for `columns = 2, rows = 1, sideLength = 10,
sideAngle = 120, distance = 7`, the right vertex of the first hexagon and
the top-left vertex of the second are at squared distance `34 < 7^2`, so
their minimum vertex-to-vertex separation is below `distance` (and the two
outlines in fact overlap). -/
theorem adjacent_overlap_bug :
    (honeycomb_cells 2 1 10 120 7).length = 2 ∧
    sqDist (nth (cellNth (honeycomb_cells 2 1 10 120 7) 0) 2)
        (nth (cellNth (honeycomb_cells 2 1 10 120 7) 1) 0) = 34 ∧
    sqDist (nth (cellNth (honeycomb_cells 2 1 10 120 7) 0) 2)
        (nth (cellNth (honeycomb_cells 2 1 10 120 7) 1) 0) < 7 ^ 2 := by
  have hc : honeycomb_cells 2 1 10 120 7 =
      [calculate_hexagon 0 0 10 120,
       calculate_hexagon (x_step 10 120 7) 0 10 120] := by
    simp [honeycomb_cells, pyRange, List.range_succ]
  have hA : nth (cellNth (honeycomb_cells 2 1 10 120 7) 0) 2 =
      (10 * Real.cos (radians ((180 - (120 : ℝ)) / 2)) + 10,
       10 * Real.sin (radians ((180 - (120 : ℝ)) / 2)) * 2) := by
    rw [hc]; simp [cellNth, nth, calculate_hexagon]
  have hB : nth (cellNth (honeycomb_cells 2 1 10 120 7) 1) 0 =
      (x_step 10 120 7 - 10 * Real.cos (radians ((180 - (120 : ℝ)) / 2)),
       10 * Real.sin (radians ((180 - (120 : ℝ)) / 2))) := by
    rw [hc]; simp [cellNth, nth, calculate_hexagon]
  have hd : sqDist (nth (cellNth (honeycomb_cells 2 1 10 120 7) 0) 2)
      (nth (cellNth (honeycomb_cells 2 1 10 120 7) 1) 0) = 34 := by
    rw [hA, hB]
    simp only [sqDist, x_step, hexagon_width, alpha_rad]
    rw [sin120]
    ring_nf
  refine ⟨by rw [hc]; rfl, hd, by rw [hd]; norm_num⟩

/-- C3: generated vertices do NOT all lie inside the declared viewBox
`[0, width] x [0, height]`: already for `columns = 1, rows = 1,
sideLength = 10, sideAngle = 120, distance = 0`, the left vertex of the
single hexagon has negative x-coordinate `-(10 cos 30) - 10`, outside the
viewBox that starts at `0 0`. -/
theorem vertex_outside_viewbox_bug :
    (honeycomb_cells 1 1 10 120 0).length = 1 ∧
    (nth (cellNth (honeycomb_cells 1 1 10 120 0) 0) 5).1 < 0 := by
  have hc : honeycomb_cells 1 1 10 120 0 = [calculate_hexagon 0 0 10 120] := by
    simp [honeycomb_cells, pyRange, List.range_succ]
  have hv : (nth (cellNth (honeycomb_cells 1 1 10 120 0) 0) 5).1 =
      -(10 * Real.cos (radians ((180 - (120 : ℝ)) / 2))) - 10 := by
    rw [hc]; simp [cellNth, nth, calculate_hexagon]
  refine ⟨by rw [hc]; rfl, ?_⟩
  rw [hv, cos120]
  have h3 : 0 ≤ Real.sqrt 3 := Real.sqrt_nonneg 3
  linarith

/-- The SVG document header emitted by `generate_honeycomb_svg` before the
cell loop. `fR` renders a real and `fZ` an integer, standing for Python's
f-string interpolation of floats and ints. -/
noncomputable def svgHeader (fR : ℝ → String) (fZ : ℤ → String)
    (columns rows : ℤ) (length angle distance : ℝ) : String :=
  "<?xml version=\"1.0\" encoding=\"UTF-8\" standalone=\"no\"?>\n<svg width=\"" ++
    fR (total_width columns length angle distance) ++ "mm\" height=\"" ++
    fR (total_height rows length angle distance) ++ "mm\" viewBox=\"0 0 " ++
    fR (total_width columns length angle distance) ++ " " ++
    fR (total_height rows length angle distance) ++
    "\"\n     xmlns=\"http://www.w3.org/2000/svg\">\n  <title>Honeycomb Pattern</title>\n  <desc>Generated honeycomb pattern with " ++
    fZ columns ++ " columns and " ++ fZ rows ++ " rows</desc>\n"

/-- One `<polygon .../>` line: the points attribute is the space-separated
list of `x,y` pairs, then the fixed fill and stroke styling. -/
noncomputable def polygonLine (fR : ℝ → String) (points : List (ℝ × ℝ)) :
    String :=
  "  <polygon points=\"" ++
    String.intercalate " " (points.map (fun p => fR p.1 ++ "," ++ fR p.2)) ++
    "\" fill=\"none\" stroke=\"black\" stroke-width=\"0.5\"/>\n"

/-- Shallow embedding of `generate_honeycomb_svg`: the header, then the
imperative `svg += ...` accumulation over the cell loop, then the closing
tag. -/
noncomputable def svgString (fR : ℝ → String) (fZ : ℤ → String)
    (columns rows : ℤ) (length angle distance : ℝ) : String :=
  ((honeycomb_cells columns rows length angle distance).foldl
    (fun acc pts => acc ++ polygonLine fR pts)
    (svgHeader fR fZ columns rows length angle distance)) ++ "</svg>"

lemma join_cons (s : String) (l : List String) :
    String.join (s :: l) = s ++ String.join l := by
  apply String.ext
  simp [String.join_eq]

/-- Accumulating appends with `foldl` is the same as appending the joined
pieces after the initial string. -/
lemma foldl_append_join {α : Type} (f : α → String) (l : List α)
    (init : String) :
    l.foldl (fun acc x => acc ++ f x) init = init ++ String.join (l.map f) := by
  induction l generalizing init with
  | nil => simp [String.join, String.append_empty]
  | cons x xs ih =>
    simp only [List.foldl_cons, List.map_cons]
    rw [ih, join_cons, String.append_assoc]

lemma cells_length (c r : ℤ) (l a d : ℝ) :
    (honeycomb_cells c r l a d).length =
      ((pyRange r).map (fun row => (if row % 2 = 1 then c - 1 else c).toNat)).sum := by
  unfold honeycomb_cells
  rw [List.length_flatMap]
  apply congrArg List.sum
  apply List.map_congr_left
  intro row _
  simp only [Function.comp_apply, List.length_map, pyRange, List.length_range]

lemma cells_length_nat (c : ℤ) (n : ℕ) (l a d : ℝ) :
    (honeycomb_cells c (n : ℤ) l a d).length =
      ((List.range n).map (fun i => (if i % 2 = 1 then c - 1 else c).toNat)).sum := by
  rw [cells_length]
  unfold pyRange
  rw [Int.toNat_natCast, List.map_map]
  apply congrArg
  apply List.map_congr_left
  intro i _
  have hcast : ((i : ℤ)) % 2 = 1 ↔ i % 2 = 1 := by omega
  by_cases hi : i % 2 = 1 <;>
    simp [Function.comp_apply, Int.ofNat_eq_natCast, hcast, hi]

lemma sum_stagger (k : ℕ) (hk : 1 ≤ k) : ∀ n : ℕ,
    ((List.range n).map (fun i => if i % 2 = 1 then k - 1 else k)).sum = n * k - n / 2
  | 0 => by simp
  | n + 1 => by
    rw [List.range_succ, List.map_append, List.sum_append, sum_stagger k hk n]
    simp only [List.map_cons, List.map_nil, List.sum_cons, List.sum_nil]
    have hmul : (n + 1) * k = n * k + k := by ring
    have hle : n / 2 ≤ n * k :=
      le_trans (Nat.div_le_self n 2) (Nat.le_mul_of_pos_right n hk)
    rw [hmul]
    generalize hM : n * k = M at hle ⊢
    by_cases hp : n % 2 = 1 <;> simp [hp] <;> omega

/-- General cell-count formula shared by several results below. -/
lemma cells_count (c r : ℤ) (l a d : ℝ) (hc : 1 ≤ c) (hr : 1 ≤ r) :
    ((honeycomb_cells c r l a d).length : ℤ) = r * c - r / 2 := by
  obtain ⟨n, rfl⟩ : ∃ n : ℕ, r = (n : ℤ) :=
    ⟨r.toNat, (Int.toNat_of_nonneg (by omega)).symm⟩
  obtain ⟨k, rfl⟩ : ∃ k : ℕ, c = (k : ℤ) :=
    ⟨c.toNat, (Int.toNat_of_nonneg (by omega)).symm⟩
  rw [cells_length_nat]
  have hk : 1 ≤ k := by exact_mod_cast hc
  have hx : ∀ i : ℕ,
      ((if i % 2 = 1 then (k : ℤ) - 1 else (k : ℤ)).toNat) =
        (if i % 2 = 1 then k - 1 else k) := by
    intro i; by_cases h : i % 2 = 1 <;> simp [h]
  simp only [hx]
  rw [sum_stagger k hk n]
  have hle : n / 2 ≤ n * k :=
    le_trans (Nat.div_le_self n 2) (Nat.le_mul_of_pos_right n hk)
  rw [← Nat.cast_mul]
  generalize hM : n * k = M at hle ⊢
  omega

/-- C4: for `columns >= 1` and `rows >= 1` the number of emitted hexagons is
`rows * columns - rows / 2` (integer division): even rows contribute
`columns` cells and odd rows `columns - 1`. -/
theorem hexagon_count (c r : ℤ) (l a d : ℝ) (hc : 1 ≤ c) (hr : 1 ≤ r) :
    ((honeycomb_cells c r l a d).length : ℤ) = r * c - r / 2 :=
  cells_count c r l a d hc hr

theorem hexagon_count_witness :
    ((honeycomb_cells 3 5 1 120 0).length : ℤ) = 5 * 3 - 5 / 2 :=
  hexagon_count 3 5 1 120 0 (by norm_num) (by norm_num)

lemma pyRange_nil {n : ℤ} (h : n ≤ 0) : pyRange n = [] := by
  unfold pyRange
  rw [Int.toNat_of_nonpos h]
  rfl

/-- C7: non-positive grid dimensions produce no cells and a document that is
just the header followed by the closing tag — no error, an empty grid. -/
theorem empty_grid_ok (fR : ℝ → String) (fZ : ℤ → String) (c r : ℤ)
    (l a d : ℝ) (h : c ≤ 0 ∨ r ≤ 0) :
    honeycomb_cells c r l a d = [] ∧
    svgString fR fZ c r l a d = svgHeader fR fZ c r l a d ++ "</svg>" := by
  have hcells : honeycomb_cells c r l a d = [] := by
    rcases h with h | h
    · unfold honeycomb_cells
      rw [List.flatMap_eq_nil_iff]
      intro row _
      have hnil : pyRange (if row % 2 = 1 then c - 1 else c) = [] := by
        by_cases hp : row % 2 = 1
        · rw [if_pos hp]; exact pyRange_nil (by omega)
        · rw [if_neg hp]; exact pyRange_nil h
      show List.map _ (pyRange (if row % 2 = 1 then c - 1 else c)) = []
      rw [hnil]
      rfl
    · unfold honeycomb_cells
      rw [pyRange_nil h]
      rfl
  refine ⟨hcells, ?_⟩
  unfold svgString
  rw [hcells]
  rfl

theorem empty_grid_ok_witness :
    honeycomb_cells 0 3 1 120 0 = [] ∧
    svgString (fun _ => "") (fun _ => "") 0 3 1 120 0 =
      svgHeader (fun _ => "") (fun _ => "") 0 3 1 120 0 ++ "</svg>" :=
  empty_grid_ok (fun _ => "") (fun _ => "") 0 3 1 120 0 (Or.inl (by norm_num))

/-- C6 (amended): the code performs NO validation of `sideAngle` or
`sideLength`: even for invalid geometry parameters it computes every vertex
and returns a complete SVG document with the usual `rows*columns - rows/2`
hexagons, instead of failing fast. -/
theorem no_validation_document (fR : ℝ → String) (fZ : ℤ → String)
    (c r : ℤ) (l a d : ℝ) (hc : 1 ≤ c) (hr : 1 ≤ r)
    (hinvalid : l ≤ 0 ∨ a ≤ 0 ∨ 180 ≤ a) :
    honeycomb_cells c r l a d ≠ [] ∧
    svgString fR fZ c r l a d =
      svgHeader fR fZ c r l a d ++
        String.join ((honeycomb_cells c r l a d).map (polygonLine fR)) ++
        "</svg>" := by
  constructor
  · have hcount := cells_count c r l a d hc hr
    have hrc : r ≤ r * c := le_mul_of_one_le_right (by omega) hc
    apply List.ne_nil_of_length_pos
    generalize hM : r * c = M at hcount hrc
    omega
  · unfold svgString
    rw [foldl_append_join]

theorem no_validation_document_witness :
    honeycomb_cells 2 2 (-5) 300 0 ≠ [] ∧
    svgString (fun _ => "v") (fun _ => "w") 2 2 (-5) 300 0 =
      svgHeader (fun _ => "v") (fun _ => "w") 2 2 (-5) 300 0 ++
        String.join ((honeycomb_cells 2 2 (-5) 300 0).map
          (polygonLine (fun _ => "v"))) ++
        "</svg>" :=
  no_validation_document (fun _ => "v") (fun _ => "w") 2 2 (-5) 300 0
    (by norm_num) (by norm_num) (Or.inl (by norm_num))

/-- C6 counterexample: with invalid parameters `sideLength = -5`,
`sideAngle = 300`, the program does not fail fast: it computes a hexagon
and produces an output document ending in the closing tag. -/
theorem no_failfast_counterexample :
    (honeycomb_cells 1 1 (-5) 300 0).length = 1 ∧
    (∃ body : String, svgString (fun _ => "") (fun _ => "") 1 1 (-5) 300 0 =
      body ++ "</svg>") := by
  constructor
  · simp [honeycomb_cells, pyRange, List.range_succ]
  · exact ⟨_, rfl⟩

/-- C8: the output is the XML header with `mm`-suffixed width/height, a
`viewBox` of `0 0 <width> <height>`, the title/desc pair naming the column
and row counts, then exactly one polygon element per hexagon — its points
attribute the space-separated `x,y` pairs in `calculate_hexagon` order,
with `fill="none"` and a black stroke — and finally the closing tag. -/
theorem svg_format (fR : ℝ → String) (fZ : ℤ → String) (c r : ℤ)
    (l a d : ℝ) :
    svgString fR fZ c r l a d =
      "<?xml version=\"1.0\" encoding=\"UTF-8\" standalone=\"no\"?>\n<svg width=\"" ++
        fR (total_width c l a d) ++ "mm\" height=\"" ++
        fR (total_height r l a d) ++ "mm\" viewBox=\"0 0 " ++
        fR (total_width c l a d) ++ " " ++ fR (total_height r l a d) ++
        "\"\n     xmlns=\"http://www.w3.org/2000/svg\">\n  <title>Honeycomb Pattern</title>\n  <desc>Generated honeycomb pattern with " ++
        fZ c ++ " columns and " ++ fZ r ++ " rows</desc>\n" ++
      String.join ((honeycomb_cells c r l a d).map (fun pts =>
        "  <polygon points=\"" ++
          String.intercalate " "
            (pts.map (fun p => fR p.1 ++ "," ++ fR p.2)) ++
          "\" fill=\"none\" stroke=\"black\" stroke-width=\"0.5\"/>\n")) ++
      "</svg>" := by
  unfold svgString
  rw [foldl_append_join]
  unfold svgHeader polygonLine
  rfl

/-- C9: `generate_honeycomb_svg` is deterministic — equal parameters give
byte-identical output strings. -/
theorem svg_deterministic (fR : ℝ → String) (fZ : ℤ → String)
    (c₁ r₁ c₂ r₂ : ℤ) (l₁ a₁ d₁ l₂ a₂ d₂ : ℝ)
    (hc : c₁ = c₂) (hr : r₁ = r₂) (hl : l₁ = l₂) (ha : a₁ = a₂)
    (hd : d₁ = d₂) :
    svgString fR fZ c₁ r₁ l₁ a₁ d₁ = svgString fR fZ c₂ r₂ l₂ a₂ d₂ := by
  subst hc; subst hr; subst hl; subst ha; subst hd; rfl

theorem svg_deterministic_witness :
    svgString (fun _ => "n") (fun _ => "m") 10 8 50 120 2 =
      svgString (fun _ => "n") (fun _ => "m") 10 8 50 120 2 :=
  svg_deterministic (fun _ => "n") (fun _ => "m") 10 8 10 8 50 120 2 50 120 2
    rfl rfl rfl rfl rfl
